import Mathlib

/-!
Shallow embedding of `src/website/src/components/Monaco.vue`, the editor-host
component of the ast-grep website: worker routing (`MonacoEnvironment.getWorker`),
match-range decoration synchronisation (`transformMatch` and the `props.highlights`
watcher), language-driven model switching (the `props.language` watcher), event
forwarding (`onDidChangeModelContent` / `onDidChangeCursorPosition` handlers) and
the mount / unmount lifecycle (`onMounted` / `onBeforeUnmount`).

The component's module-level mutable state (the `editor` shallow ref and the
`highlights` decoration-collection variable) is made explicit as a `HostState`
record threaded through each handler.  Absent JavaScript values (`undefined`,
`null`) are `Option`; a runtime `TypeError` is an `Except` error.
-/

/-- The six worker constructors imported at the top of `Monaco.vue`:
`jsonWorker`, `cssWorker`, `htmlWorker`, `tsWorker`, `yamlWorker`, and the
generic `editorWorker` fallback. -/
inductive WorkerKind
  | jsonWorker
  | cssWorker
  | htmlWorker
  | tsWorker
  | yamlWorker
  | editorWorker
deriving DecidableEq, Repr

/-- `MonacoEnvironment.getWorker(_, label)` from `Monaco.vue` lines 13-30:
a cascade of `if` tests on `label`, first match wins, falling through to the
generic editor worker. -/
def getWorker (label : String) : WorkerKind :=
  if label = "json" then .jsonWorker
  else if label = "css" ∨ label = "scss" ∨ label = "less" then .cssWorker
  else if label = "html" ∨ label = "handlebars" ∨ label = "razor" then .htmlWorker
  else if label = "typescript" ∨ label = "javascript" then .tsWorker
  else if label = "yaml" then .yamlWorker
  else .editorWorker

/-- `new monaco.Range(startLineNumber, startColumn, endLineNumber, endColumn)`:
Monaco's 1-indexed range value. -/
structure MonacoRange where
  startLineNumber : Int
  startColumn : Int
  endLineNumber : Int
  endColumn : Int
deriving DecidableEq, Repr

/-- The `options` object of a decoration; `Monaco.vue` only ever sets
`inlineClassName`. -/
structure DecorationOptions where
  inlineClassName : String
deriving DecidableEq, Repr

/-- One decoration as built by `transformMatch`: a range plus options. -/
structure Decoration where
  range : MonacoRange
  options : DecorationOptions
deriving DecidableEq, Repr

/-- The fixed highlight class used for every match decoration. -/
def monacoHighlightSpan : String := "monaco-highlight-span"

/-- `transformMatch` from `Monaco.vue` lines 100-108.  The source destructures
`const [sr, sc, er, ec] = match` from a `number[]`; the claims only concern
well-formed 4-integer ranges, for which the `getD` reads below coincide with
the JavaScript destructuring.  Each coordinate is shifted by `+1` into Monaco's
1-indexed convention and tagged with the fixed highlight class. -/
def transformMatch (m : List Int) : Decoration :=
  let sr := m.getD 0 0
  let sc := m.getD 1 0
  let er := m.getD 2 0
  let ec := m.getD 3 0
  { range := ⟨sr + 1, sc + 1, er + 1, ec + 1⟩
  , options := ⟨monacoHighlightSpan⟩ }

/-- A Monaco text model: identity (for tracking disposal), full text, and
language, as produced by `monaco.editor.create` / `monaco.editor.createModel`. -/
structure EditorModel where
  mid : Nat
  text : String
  language : String
deriving DecidableEq, Repr

/-- The live editor instance created by `monaco.editor.create`: its attached
model, the `readOnly` option, the number of content / cursor listeners
registered on it, and whether `dispose()` has been called. -/
structure EditorInstance where
  activeModel : EditorModel
  readOnly : Bool
  contentListeners : Nat
  cursorListeners : Nat
  disposed : Bool
deriving DecidableEq, Repr

/-- The component's module-level mutable state: the `editor` shallow ref
(`null` until mount succeeds), the `highlights` decoration-collection variable
(`null` until `createDecorationsCollection` runs), and a fresh-id counter for
model identities. -/
structure HostState where
  editor : Option EditorInstance
  highlightsCollection : Option (List Decoration)
  nextModelId : Nat
deriving DecidableEq, Repr

/-- State before `onMounted` runs: `editor.value === null`,
`highlights === null`. -/
def initialState : HostState :=
  { editor := none, highlightsCollection := none, nextModelId := 0 }

/-- The resolved props of the component (after `defineProps` applies
defaults): `language` and `readonly` are always present, `modelValue` and
`highlights` may be absent. -/
structure Props where
  language : String
  modelValue : Option String
  readonly : Bool
  highlights : Option (List (List Int))
deriving DecidableEq, Repr

/-- The props as supplied by the parent, every option possibly omitted. -/
structure PropsIn where
  language : Option String
  modelValue : Option String
  readonly : Option Bool
  highlights : Option (List (List Int))
deriving DecidableEq, Repr

/-- `defineProps` from `Monaco.vue` lines 49-62: `language` defaults to
`'javascript'`, `readonly` defaults to `false`; `modelValue` and `highlights`
declare no default and stay absent when omitted. -/
def resolveProps (p : PropsIn) : Props :=
  { language := p.language.getD "javascript"
  , modelValue := p.modelValue
  , readonly := p.readonly.getD false
  , highlights := p.highlights }

/-- An abstract DOM container (`containerRef.value`); only its presence
matters to the component. -/
def Container : Type := Unit

/-- The `onMounted` hook, `Monaco.vue` lines 71-98.  If `containerRef.value`
is null it returns immediately; otherwise it creates the editor with the
initial model (`value: props.modelValue`, absent meaning empty text,
`language: props.language`, `readOnly: props.readonly`), registers one content
listener and one cursor listener, and initialises the decoration collection
from `props.highlights?.map(transformMatch) || []`. -/
def onMounted (container : Option Container) (props : Props) (s : HostState) :
    HostState :=
  match container with
  | none => s
  | some _ =>
    let model : EditorModel :=
      { mid := s.nextModelId
      , text := props.modelValue.getD ""
      , language := props.language }
    { editor := some
        { activeModel := model
        , readOnly := props.readonly
        , contentListeners := 1
        , cursorListeners := 1
        , disposed := false }
    , highlightsCollection :=
        some ((props.highlights.map (fun hs => hs.map transformMatch)).getD [])
    , nextModelId := s.nextModelId + 1 }

/-- A JavaScript runtime error; the only one this component can raise is the
`TypeError` from calling `.map` on `undefined`. -/
inductive JsError
  | typeError
deriving DecidableEq, Repr

/-- The `watch(() => props.highlights, ...)` callback, `Monaco.vue` lines
110-113.  `matched!.map(transformMatch)` throws a `TypeError` when the new
value is absent (the `!` assertion is erased at runtime); otherwise
`highlights?.set(ranges)` replaces the whole decoration set when the
collection exists and is a no-op when it is still null. -/
def highlightsWatcher (matched : Option (List (List Int))) (s : HostState) :
    Except JsError HostState :=
  match matched with
  | none => .error .typeError
  | some ms =>
    let ranges := ms.map transformMatch
    match s.highlightsCollection with
    | none => .ok s
    | some _ => .ok { s with highlightsCollection := some ranges }

/-- The `watch(() => props.language, ...)` callback, `Monaco.vue` lines
115-122.  It reads the old model via `editor.value?.getModel()`, creates a new
model from `props.modelValue || ''` and the new language, attaches it via
`editor.value?.setModel(newModel)`, and finally disposes the old model when it
exists.  Returns the new state together with the list of model ids on which
`dispose()` was invoked. -/
def languageWatcher (lang : String) (modelValue : Option String)
    (s : HostState) : HostState × List Nat :=
  let oldModel := s.editor.map (fun e => e.activeModel)
  let newModel : EditorModel :=
    { mid := s.nextModelId, text := modelValue.getD "", language := lang }
  let s1 : HostState :=
    { s with
      editor := s.editor.map (fun e => { e with activeModel := newModel })
      nextModelId := s.nextModelId + 1 }
  match oldModel with
  | some m => (s1, [m.mid])
  | none => (s1, [])

/-- Micro-step events of a language switch, for the temporal ordering claim:
model creation, attachment (`setModel`) and disposal. -/
inductive ModelEvent
  | create (mid : Nat)
  | attach (mid : Nat)
  | dispose (mid : Nat)
deriving DecidableEq, Repr

/-- The exact order of model operations performed by the `props.language`
watcher: `createModel` first, then `setModel`, then `oldModel.dispose()` (the
latter two only when an editor exists; `createModel` is unconditional in the
source). -/
def languageWatcherTrace (s : HostState) : List ModelEvent :=
  match s.editor with
  | some e =>
      [.create s.nextModelId, .attach s.nextModelId, .dispose e.activeModel.mid]
  | none => [.create s.nextModelId]

/-- Which model is attached after one micro-step: `setModel` atomically
replaces the attached model; creation and disposal do not change attachment. -/
def applyModelEvent (att : Option Nat) : ModelEvent → Option Nat
  | .attach m => some m
  | _ => att

/-- Which model is attached after a sequence of micro-steps. -/
def attachedAfter (att : Option Nat) (tr : List ModelEvent) : Option Nat :=
  tr.foldl applyModelEvent att

/-- The `dispose()` method of the editor instance. -/
def disposeEditor (e : EditorInstance) : EditorInstance :=
  { e with disposed := true }

/-- The `onBeforeUnmount` hook, `Monaco.vue` lines 124-126:
`editor.value?.dispose()` — disposes the editor when the ref is set, no-op
otherwise (the ref itself is not cleared). -/
def onBeforeUnmount (s : HostState) : HostState :=
  { s with editor := s.editor.map disposeEditor }

/-- Whether a live (created and not disposed) editor instance is bound to the
container. -/
def hasLiveEditor (s : HostState) : Bool :=
  match s.editor with
  | some e => !e.disposed
  | none => false

/-- Monaco's cursor position (1-indexed line and column). -/
structure MonacoPosition where
  lineNumber : Int
  column : Int
deriving DecidableEq, Repr

/-- The event payload of `onDidChangeCursorPosition`, forwarded verbatim. -/
structure CursorEvent where
  position : MonacoPosition
deriving DecidableEq, Repr

/-- The events the component emits outward (`defineEmits`, lines 44-47). -/
inductive EmittedEvent
  | updateModelValue (text : String)
  | changeCursor (e : CursorEvent)
deriving DecidableEq, Repr

/-- The `onDidChangeModelContent` listener body, lines 91-93: a single
`emits('update:modelValue', editorInstance.getValue())` — the full current
text, no diff, no buffering. -/
def contentChangeHandler (currentText : String) : List EmittedEvent :=
  [.updateModelValue currentText]

/-- The `onDidChangeCursorPosition` listener body, lines 94-96: a single
`emits('changeCursor', e)` forwarding the event object. -/
def cursorChangeHandler (e : CursorEvent) : List EmittedEvent :=
  [.changeCursor e]

/-- One underlying edit operation on a mounted editor: the model's text
becomes `newText` and Monaco fires `onDidChangeModelContent` once, running the
registered handler with `getValue()` (the complete post-edit text).  Without
an editor nothing happens. -/
def applyEdit (s : HostState) (newText : String) :
    HostState × List EmittedEvent :=
  match s.editor with
  | none => (s, [])
  | some e =>
    let e1 := { e with activeModel := { e.activeModel with text := newText } }
    ({ s with editor := some e1 }, contentChangeHandler newText)

/-- One cursor/selection move on a mounted editor: Monaco fires
`onDidChangeCursorPosition` once, running the registered handler with the
event payload. -/
def applyCursorMove (s : HostState) (e : CursorEvent) :
    HostState × List EmittedEvent :=
  match s.editor with
  | none => (s, [])
  | some _ => (s, cursorChangeHandler e)

/-- Claim C3: `getWorker` maps every label deterministically by first-match
dispatch — `json` to the JSON worker; `css`/`scss`/`less` to the style worker;
`html`/`handlebars`/`razor` to the markup worker; `typescript`/`javascript` to
the type-aware worker; `yaml` to the YAML worker; every other label to the
generic editor worker — and the six worker kinds are mutually distinct. -/
theorem getWorker_dispatch :
    getWorker "json" = WorkerKind.jsonWorker ∧
    getWorker "css" = WorkerKind.cssWorker ∧
    getWorker "scss" = WorkerKind.cssWorker ∧
    getWorker "less" = WorkerKind.cssWorker ∧
    getWorker "html" = WorkerKind.htmlWorker ∧
    getWorker "handlebars" = WorkerKind.htmlWorker ∧
    getWorker "razor" = WorkerKind.htmlWorker ∧
    getWorker "typescript" = WorkerKind.tsWorker ∧
    getWorker "javascript" = WorkerKind.tsWorker ∧
    getWorker "yaml" = WorkerKind.yamlWorker ∧
    (∀ label : String, label ≠ "json" → label ≠ "css" → label ≠ "scss" →
      label ≠ "less" → label ≠ "html" → label ≠ "handlebars" →
      label ≠ "razor" → label ≠ "typescript" → label ≠ "javascript" →
      label ≠ "yaml" → getWorker label = WorkerKind.editorWorker) ∧
    ([WorkerKind.jsonWorker, WorkerKind.cssWorker, WorkerKind.htmlWorker,
      WorkerKind.tsWorker, WorkerKind.yamlWorker,
      WorkerKind.editorWorker].Pairwise (fun a b => a ≠ b)) := by
  refine ⟨by decide, by decide, by decide, by decide, by decide, by decide,
    by decide, by decide, by decide, by decide, ?_, by decide⟩
  intro label h1 h2 h3 h4 h5 h6 h7 h8 h9 h10
  simp [getWorker, h1, h2, h3, h4, h5, h6, h7, h8, h9, h10]

/-- Witness for C3: the fallback branch at the concrete label `python`. -/
theorem getWorker_dispatch_witness :
    getWorker "python" = WorkerKind.editorWorker :=
  getWorker_dispatch.2.2.2.2.2.2.2.2.2.2.1 "python" (by decide) (by decide)
    (by decide) (by decide) (by decide) (by decide) (by decide) (by decide)
    (by decide) (by decide)

/-- Claim C4: with an absent container, `onMounted` is a silent no-op — the
state (hence: no editor, no listeners, no decoration collection) is unchanged
and no error is possible — and a later retry of mount with a present container
does create an editor. -/
theorem onMounted_absent_container (props : Props) (s : HostState) :
    onMounted none props s = s ∧
    (onMounted (some ()) props (onMounted none props s)).editor.isSome = true := by
  exact ⟨rfl, rfl⟩

/-- Claim C5: `onBeforeUnmount` is idempotent and safe in every state —
a no-op before any mount, stable under repetition, and after mount followed by
unmount no live (undisposed) editor instance remains. -/
theorem onBeforeUnmount_idempotent_safe (props : Props) (s : HostState) :
    onBeforeUnmount initialState = initialState ∧
    onBeforeUnmount (onBeforeUnmount s) = onBeforeUnmount s ∧
    hasLiveEditor (onBeforeUnmount (onMounted (some ()) props initialState)) =
      false := by
  refine ⟨rfl, ?_, rfl⟩
  obtain ⟨ed, hc, n⟩ := s
  cases ed <;> rfl

/-- Claim C8: when inbound options are omitted, `language` resolves to the
generic script identifier `javascript` and `readonly` to `false`, and mounting
with no `highlights` creates an empty initial decoration set. -/
theorem resolveProps_defaults (mv : Option String) (s : HostState) :
    (resolveProps ⟨none, mv, none, none⟩).language = "javascript" ∧
    (resolveProps ⟨none, mv, none, none⟩).readonly = false ∧
    (onMounted (some ()) (resolveProps ⟨none, mv, none, none⟩)
        s).highlightsCollection = some [] := by
  exact ⟨rfl, rfl, rfl⟩

/-- Claim C9: the highlights watcher is not total over absent input — on an
absent new value it throws a `TypeError` (`matched!.map` on `undefined`) —
whereas `onMounted` tolerates an absent highlights list by substituting the
empty decoration set. -/
theorem highlightsWatcher_not_total (s : HostState) (props : Props)
    (hnone : props.highlights = none) :
    highlightsWatcher none s = Except.error JsError.typeError ∧
    (onMounted (some ()) props s).highlightsCollection = some [] := by
  exact ⟨rfl, by simp [onMounted, hnone]⟩

/-- Witness for C9 at the initial state and fully defaulted props. -/
theorem highlightsWatcher_not_total_witness :
    highlightsWatcher none initialState = Except.error JsError.typeError ∧
    (onMounted (some ())
        { language := "javascript", modelValue := none, readonly := false,
          highlights := none }
        initialState).highlightsCollection = some [] :=
  highlightsWatcher_not_total initialState
    { language := "javascript", modelValue := none, readonly := false,
      highlights := none } rfl

/-- Claim C10: invoking the highlights watcher with a valid list before any
mount (no decoration collection exists yet) raises no error and changes no
state: `highlights?.set` is a null-safe no-op. -/
theorem highlightsWatcher_premount_noop (s : HostState) (R : List (List Int))
    (hnc : s.highlightsCollection = none) :
    highlightsWatcher (some R) s = Except.ok s := by
  obtain ⟨ed, hc, n⟩ := s
  cases hnc
  rfl

/-- Witness for C10 at the initial state and a concrete range list. -/
theorem highlightsWatcher_premount_noop_witness :
    highlightsWatcher (some [[0, 0, 0, 5]]) initialState =
      Except.ok initialState :=
  highlightsWatcher_premount_noop initialState [[0, 0, 0, 5]] rfl

/-- Claim C1: for every valid list `R` of 4-integer match ranges, when a
decoration collection exists the highlights watcher succeeds and replaces the
whole decoration set (whatever it held before) with exactly `R.length`
decorations; decoration `i` spans `(R[i].startRow+1, R[i].startCol+1)` to
`(R[i].endRow+1, R[i].endCol+1)` and carries the single fixed highlight
class. -/
theorem highlightsWatcher_sync_replaces (s : HostState) (R : List (List Int))
    (old : List Decoration) (hs : s.highlightsCollection = some old) :
    highlightsWatcher (some R) s =
      Except.ok { s with highlightsCollection := some (R.map transformMatch) } ∧
    (R.map transformMatch).length = R.length ∧
    ∀ (i : Nat) (hi : i < R.length) (sr sc er ec : Int),
      R.get ⟨i, hi⟩ = [sr, sc, er, ec] →
      (R.map transformMatch).get ⟨i, by simpa using hi⟩ =
        { range := { startLineNumber := sr + 1, startColumn := sc + 1,
                     endLineNumber := er + 1, endColumn := ec + 1 }
        , options := { inlineClassName := monacoHighlightSpan } } := by
  obtain ⟨ed, hc, n⟩ := s
  cases hs
  refine ⟨rfl, by simp, ?_⟩
  intro i hi sr sc er ec hR
  simp only [List.get_eq_getElem] at hR
  simp [List.get_eq_getElem, hR, transformMatch, monacoHighlightSpan]

/-- Witness for C1: the spec scenario `highlights = [[0, 0, 0, 5]]` — exactly
one decoration, spanning line 1 column 1 to line 1 column 6. -/
theorem highlightsWatcher_sync_replaces_witness :
    highlightsWatcher (some [[0, 0, 0, 5]])
        { editor := none, highlightsCollection := some [], nextModelId := 0 } =
      Except.ok
        { editor := none
        , highlightsCollection :=
            some [{ range := { startLineNumber := 1, startColumn := 1,
                               endLineNumber := 1, endColumn := 6 }
                  , options := { inlineClassName := "monaco-highlight-span" } }]
        , nextModelId := 0 } := by
  have h := (highlightsWatcher_sync_replaces
      { editor := none, highlightsCollection := some [], nextModelId := 0 }
      [[0, 0, 0, 5]] [] rfl).1
  simpa [transformMatch, monacoHighlightSpan] using h

/-- Claim C2: on a mounted editor, the language watcher builds a new model
whose text is the current text content (`props.modelValue`) and whose language
is the new language, attaches it as the active model, and invokes `dispose`
exactly once, on the prior model only. -/
theorem languageWatcher_rebuilds_model (s : HostState) (e : EditorInstance)
    (lang t : String) (he : s.editor = some e) :
    (languageWatcher lang (some t) s).1.editor =
      some { e with activeModel :=
        { mid := s.nextModelId, text := t, language := lang } } ∧
    (languageWatcher lang (some t) s).2 = [e.activeModel.mid] ∧
    ((languageWatcher lang (some t) s).2).count e.activeModel.mid = 1 := by
  obtain ⟨ed, hc, n⟩ := s
  cases he
  exact ⟨rfl, rfl, by simp [languageWatcher]⟩

/-- Witness for C2: the spec scenario — `modelValue = "print(1)"`, switch
`javascript → python`: the active model's text is `print(1)`, its language is
`python`, and the prior model (id 0) is disposed exactly once. -/
theorem languageWatcher_rebuilds_model_witness :
    (languageWatcher "python" (some "print(1)")
        { editor := some
            { activeModel :=
                { mid := 0, text := "print(1)", language := "javascript" }
            , readOnly := false, contentListeners := 1, cursorListeners := 1
            , disposed := false }
        , highlightsCollection := some [], nextModelId := 1 }).1.editor =
      some
        { activeModel := { mid := 1, text := "print(1)", language := "python" }
        , readOnly := false, contentListeners := 1, cursorListeners := 1
        , disposed := false } ∧
    (languageWatcher "python" (some "print(1)")
        { editor := some
            { activeModel :=
                { mid := 0, text := "print(1)", language := "javascript" }
            , readOnly := false, contentListeners := 1, cursorListeners := 1
            , disposed := false }
        , highlightsCollection := some [], nextModelId := 1 }).2 = [0] := by
  have h := languageWatcher_rebuilds_model
      { editor := some
          { activeModel :=
              { mid := 0, text := "print(1)", language := "javascript" }
          , readOnly := false, contentListeners := 1, cursorListeners := 1
          , disposed := false }
      , highlightsCollection := some [], nextModelId := 1 }
      { activeModel := { mid := 0, text := "print(1)", language := "javascript" }
      , readOnly := false, contentListeners := 1, cursorListeners := 1
      , disposed := false }
      "python" "print(1)" rfl
  exact ⟨h.1, h.2.1⟩

/-- Claim C6: during a language switch on a mounted editor the micro-step
trace is create-new, attach-new, dispose-old; in every prefix of the trace the
old model is disposed only after its replacement has been attached, and
exactly one model is attached at every point (attachment is an atomic
replacement, so the tracked attachment is always present). -/
theorem languageWatcherTrace_attach_before_dispose (s : HostState)
    (e : EditorInstance) (he : s.editor = some e) :
    languageWatcherTrace s =
      [ModelEvent.create s.nextModelId, ModelEvent.attach s.nextModelId,
       ModelEvent.dispose e.activeModel.mid] ∧
    (∀ k : Nat,
      ModelEvent.dispose e.activeModel.mid ∈ (languageWatcherTrace s).take k →
      ModelEvent.attach s.nextModelId ∈ (languageWatcherTrace s).take k) ∧
    (∀ k : Nat,
      (attachedAfter (some e.activeModel.mid)
        ((languageWatcherTrace s).take k)).isSome = true) := by
  obtain ⟨ed, hc, n⟩ := s
  cases he
  refine ⟨rfl, ?_, ?_⟩
  · intro k hk
    match k with
    | 0 => simp at hk
    | 1 => simp [languageWatcherTrace] at hk
    | 2 => simp [languageWatcherTrace] at hk
    | (k + 3) => simp [languageWatcherTrace]
  · intro k
    match k with
    | 0 => rfl
    | 1 => rfl
    | 2 => rfl
    | (k + 3) =>
      simp [languageWatcherTrace, attachedAfter, applyModelEvent]

/-- Witness for C6 on a concrete mounted state: model 0 attached, next id 1. -/
theorem languageWatcherTrace_attach_before_dispose_witness :
    languageWatcherTrace
        { editor := some
            { activeModel := { mid := 0, text := "print(1)", language := "javascript" }
            , readOnly := false, contentListeners := 1, cursorListeners := 1
            , disposed := false }
        , highlightsCollection := some [], nextModelId := 1 } =
      [ModelEvent.create 1, ModelEvent.attach 1, ModelEvent.dispose 0] :=
  (languageWatcherTrace_attach_before_dispose
    { editor := some
        { activeModel := { mid := 0, text := "print(1)", language := "javascript" }
        , readOnly := false, contentListeners := 1, cursorListeners := 1
        , disposed := false }
    , highlightsCollection := some [], nextModelId := 1 }
    { activeModel := { mid := 0, text := "print(1)", language := "javascript" }
    , readOnly := false, contentListeners := 1, cursorListeners := 1
    , disposed := false } rfl).1

/-- Claim C7: on a mounted editor, one edit operation fires exactly one
`update:modelValue` event whose payload is the complete post-edit document
text (the resulting model's full text, not a diff), and one cursor move fires
exactly one `changeCursor` event with the position description, changing no
other state. -/
theorem changeEvents_exactly_one (s : HostState) (e : EditorInstance)
    (newText : String) (ev : CursorEvent) (he : s.editor = some e) :
    (applyEdit s newText).2 = [EmittedEvent.updateModelValue newText] ∧
    (applyEdit s newText).1.editor =
      some { e with activeModel := { e.activeModel with text := newText } } ∧
    (applyCursorMove s ev).2 = [EmittedEvent.changeCursor ev] ∧
    (applyCursorMove s ev).1 = s := by
  obtain ⟨ed, hc, n⟩ := s
  cases he
  exact ⟨rfl, rfl, rfl, rfl⟩

/-- Witness for C7: a concrete keystroke (`"print(1)"` becomes `"print(12)"`)
and a concrete cursor move on a mounted editor. -/
theorem changeEvents_exactly_one_witness :
    (applyEdit
        { editor := some
            { activeModel := { mid := 0, text := "print(1)", language := "javascript" }
            , readOnly := false, contentListeners := 1, cursorListeners := 1
            , disposed := false }
        , highlightsCollection := some [], nextModelId := 1 }
        "print(12)").2 = [EmittedEvent.updateModelValue "print(12)"] ∧
    (applyCursorMove
        { editor := some
            { activeModel := { mid := 0, text := "print(1)", language := "javascript" }
            , readOnly := false, contentListeners := 1, cursorListeners := 1
            , disposed := false }
        , highlightsCollection := some [], nextModelId := 1 }
        { position := { lineNumber := 1, column := 9 } }).2 =
      [EmittedEvent.changeCursor { position := { lineNumber := 1, column := 9 } }] := by
  have h := changeEvents_exactly_one
      { editor := some
          { activeModel := { mid := 0, text := "print(1)", language := "javascript" }
          , readOnly := false, contentListeners := 1, cursorListeners := 1
          , disposed := false }
      , highlightsCollection := some [], nextModelId := 1 }
      { activeModel := { mid := 0, text := "print(1)", language := "javascript" }
      , readOnly := false, contentListeners := 1, cursorListeners := 1
      , disposed := false }
      "print(12)" { position := { lineNumber := 1, column := 9 } } rfl
  exact ⟨h.1, h.2.2.1⟩
